import Mathlib

/-!
Verification of the dRonin revolution attitude module
(src/flight/Modules/Attitude/revolution/attitude.c) against its
natural-language specification.

The development is a shallow embedding of the module.  Two arithmetic models
are used, matching how the two halves of the module compute:

* The sensor-acquisition half (`updateSensors`, the mode logic of
  `SensorTask`, `settingsUpdatedCb`) only adds, subtracts, multiplies and
  divides quantities that are finite in every reachable execution; it is
  embedded in exact rational arithmetic (`ℚ`), fully computable.

* The estimator half (`updateAttitudeComplimentary`) can produce IEEE
  non-finite values (`0.0f/0.0f` when the accelerometer magnitude is zero) and
  branches on a NaN self-comparison, so its floats are embedded as
  `Option ℝ`: `some x` is a finite float of exact value `x`, `none` is a
  non-finite float.  Division by zero and the square root of a negative number
  yield `none`, and every arithmetic operation propagates `none`.  Within the
  regimes stated by the theorems (finite inputs, non-zero time step) the only
  non-finite value the module can create is the NaN from `0/0`, for which this
  conflation is exact: NaN compares unequal to itself, so the source's
  `qmag != qmag` test is the `none` test, and NaN is never `< 0`, matching the
  model's comparison operations.  Rounding is idealized (operations are exact),
  which is the regime the spec's tolerance bands are written for.

External collaborators (FreeRTOS queues, the UAVObject bus, PIOS drivers, the
timer) are modelled as explicit inputs/outputs of the embedded functions, as
the spec directs (spec section 1, "Out of scope").
-/

/-- Alarm transitions the module performs on the `ATTITUDE`/`SENSORS` alarms. -/
inductive AlarmAct where
  | setCritical : AlarmAct
  | setError    : AlarmAct
  | setWarning  : AlarmAct
  | cleared     : AlarmAct
deriving DecidableEq, Repr

/-! ## Sensor-acquisition half (attitude.c lines 175-364, 466-504) -/

/-- One raw FIFO sample from a driver (`struct pios_bma180_data` /
`struct pios_mpu6000_data`): signed integer axis counts. -/
structure Raw3 where
  x : ℤ
  y : ℤ
  z : ℤ
deriving DecidableEq, Repr

/-- The `AccelsData` UAVObject (engineering units). -/
structure AccelsData where
  x : ℚ
  y : ℚ
  z : ℚ
  temperature : ℚ
deriving DecidableEq, Repr

/-- The `GyrosData` UAVObject (engineering units). -/
structure GyrosData where
  x : ℚ
  y : ℚ
  z : ℚ
  temperature : ℚ
deriving DecidableEq, Repr

/-- The `MagnetometerData` UAVObject. -/
structure MagData where
  x : ℚ
  y : ℚ
  z : ℚ
deriving DecidableEq, Repr

/-- Environment of one `updateSensors` tick: what the external drivers return.

`accelFifo`/`gyroFifo` are the sequences of samples whose FIFO reads succeed
this tick (lines 284-293 and 314-323 drain the FIFO until a read fails).  An
empty list models a FIFO that never produces a sample: the first spin loop
(`while((read_good = ..ReadFifo(..)) != 0);`) then never exits and the tick
blocks.  `accelTemp`/`gyroTemp` are the temperature fields of the last raw
struct read; the scales come from `PIOS_BMA180_GetScale`/`PIOS_MPU6000_GetScale`. -/
structure SensorEnv where
  accelFifo : List Raw3
  accelTemp : ℤ
  accelScale : ℚ
  gyroFifo : List Raw3
  gyroTemp : ℤ
  gyroScale : ℚ
  magAvail : Bool
  magValues : ℤ × ℤ × ℤ
deriving DecidableEq, Repr

/-- The module globals `updateSensors` reads (set by `settingsUpdatedCb` and,
for `gyro_bias[0..1]`, by the estimator task). -/
structure SensorShared where
  accelbias : ℤ × ℤ × ℤ
  gyro_bias : ℚ × ℚ × ℚ
  bias_correct_gyro : Bool
  yawBiasRate : ℚ
deriving DecidableEq, Repr

/-- Everything one completed `updateSensors` tick writes: UAVObject publishes,
queue pushes, the updated `gyro_bias[2]`, and the C return value. -/
structure SensorOut where
  accelsData : AccelsData
  queueAccel : AccelsData
  queueGyro : GyrosData
  gyrosData : GyrosData
  gyro_bias_z : ℚ
  mag : Option MagData
  ret : ℤ
deriving DecidableEq, Repr

/-- The accumulation loops (lines 288-290 / 318-320): sum each axis of the
drained samples into the `accel_accum`/`gyro_accum` variables, which lines
275-278 reset to zero each tick. -/
def accumOf (l : List Raw3) : ℤ × ℤ × ℤ :=
  l.foldl (fun s r => (s.1 + r.x, s.2.1 + r.y, s.2.2 + r.z)) (0, 0, 0)

/-- Lines 296 / 326: average the accumulators over the sample count and remap
the axes — `{accum[1]/n, accum[0]/n, -accum[2]/n}`, i.e. output
x ← raw y, output y ← raw x, output z ← −raw z.  Only evaluated with a
positive sample count (the drain loop guarantees at least one sample). -/
def remapAvg (l : List Raw3) : ℚ × ℚ × ℚ :=
  let a := accumOf l
  let n : ℚ := (l.length : ℚ)
  ((a.2.1 : ℚ) / n, (a.1 : ℚ) / n, -((a.2.2 : ℚ) / n))

/-- `updateSensors` (lines 270-364).  Returns `none` when a required FIFO
never yields a sample: the spin-read at line 284 (accel) or line 314 (gyro)
then never terminates, so the tick never completes.  (For an empty gyro FIFO
the accel record has already been published when the task blocks; a blocked
tick produces no completed output, which is what `none` stands for.)
Otherwise the accel samples are averaged, remapped, bias-corrected and scaled
(lines 296-305), pushed to the accel queue (line 308), the gyro samples are
averaged, remapped and scaled (lines 326-333), the raw scaled record is pushed
to the gyro queue (line 337) before bias correction, the published copy gets
`gyro_bias` added when `bias_correct_gyro` is set (lines 342-347),
`gyro_bias[2] += -gyrosData.z * yawBiasRate` (line 351), the magnetometer is
published sign-inverted when new data is available (lines 353-361), and the
function returns 0 — its only return statement. -/
def updateSensors (env : SensorEnv) (sh : SensorShared) : Option SensorOut :=
  match env.accelFifo, env.gyroFifo with
  | [], _ => none
  | _ :: _, [] => none
  | _ :: _, _ :: _ =>
    let accels := remapAvg env.accelFifo
    let accelsData : AccelsData :=
      { x := (accels.1 - (sh.accelbias.1 : ℚ)) * env.accelScale
        y := (accels.2.1 - (sh.accelbias.2.1 : ℚ)) * env.accelScale
        z := (accels.2.2 - (sh.accelbias.2.2 : ℚ)) * env.accelScale
        temperature := 25 + ((env.accelTemp : ℚ) - 2) / 2 }
    let gyros := remapAvg env.gyroFifo
    let queueGyro : GyrosData :=
      { x := gyros.1 * env.gyroScale
        y := gyros.2.1 * env.gyroScale
        z := gyros.2.2 * env.gyroScale
        temperature := 35 + ((env.gyroTemp : ℚ) + 512) / 340 }
    let gyrosData : GyrosData :=
      if sh.bias_correct_gyro then
        { x := queueGyro.x + sh.gyro_bias.1
          y := queueGyro.y + sh.gyro_bias.2.1
          z := queueGyro.z + sh.gyro_bias.2.2
          temperature := queueGyro.temperature }
      else queueGyro
    let newBz := sh.gyro_bias.2.2 + (-gyrosData.z * sh.yawBiasRate)
    let mag : Option MagData :=
      if env.magAvail then
        some { x := -(env.magValues.1 : ℚ)
               y := -(env.magValues.2.1 : ℚ)
               z := -(env.magValues.2.2 : ℚ) }
      else none
    some { accelsData := accelsData
           queueAccel := accelsData
           queueGyro := queueGyro
           gyrosData := gyrosData
           gyro_bias_z := newBz
           mag := mag
           ret := 0 }

/-- `FlightStatusData.Armed` values used by the mode logic. -/
inductive Armed where
  | disarmed : Armed
  | arming   : Armed
  | armed    : Armed
deriving DecidableEq, Repr

/-- Environment of one `SensorTask` loop iteration's mode logic (lines
199-220): the tick count, the flight status, the `zero_during_arming` global
and the current `AttitudeSettings` gain fields read back on reload. -/
structure ModeEnv where
  tick : ℕ
  armed : Armed
  zeroDuringArming : Bool
  sKp : ℚ
  sKi : ℚ
  sYbr : ℚ
deriving DecidableEq, Repr

/-- The tuning globals the mode logic writes, plus the task-local `init` flag
(`uint8_t init`, only ever 0 or 1). -/
structure ModeState where
  accelKp : ℚ
  accelKi : ℚ
  yawBiasRate : ℚ
  init : Bool
deriving DecidableEq, Repr

/-- The mode dispatch at the top of the `SensorTask` loop (lines 202-220):
during the bootstrap window force the high gains and clear `init`; else if
zeroing during arming and the craft is ARMING force the same; else if `init`
is clear reload the three gains from settings and set `init`. -/
def modeStep (e : ModeEnv) (s : ModeState) : ModeState :=
  if e.tick < 7000 ∧ 1000 < e.tick then
    { accelKp := 1, accelKi := 0.9, yawBiasRate := 0.23, init := false }
  else if e.zeroDuringArming ∧ e.armed = Armed.arming then
    { accelKp := 1, accelKi := 0.9, yawBiasRate := 0.23, init := false }
  else if s.init = false then
    { accelKp := e.sKp, accelKi := e.sKi, yawBiasRate := e.sYbr, init := true }
  else s

/-- Iterated mode dispatch over a sequence of ticks. -/
def modeRun (l : List ModeEnv) (s : ModeState) : ModeState :=
  l.foldl (fun st e => modeStep e st) s

/-- Guard of the bootstrap branch (line 202):
`(xTaskGetTickCount() < 7000) && (xTaskGetTickCount() > 1000)`. -/
def guardBoot (e : ModeEnv) : Prop := e.tick < 7000 ∧ 1000 < e.tick

/-- Guard of the arming branch (line 209). -/
def guardArming (e : ModeEnv) : Prop :=
  e.zeroDuringArming = true ∧ e.armed = Armed.arming

/-- Guard of the reload branch (line 214): `init == 0`. -/
def guardInit (s : ModeState) : Prop := s.init = false

instance (e : ModeEnv) : Decidable (guardBoot e) := by
  unfold guardBoot; infer_instance

instance (e : ModeEnv) : Decidable (guardArming e) := by
  unfold guardArming; infer_instance

instance (s : ModeState) : Decidable (guardInit s) := by
  unfold guardInit; infer_instance

/-- Result of one full `SensorTask` loop body (mode dispatch, `updateSensors`,
alarm handling at lines 223-228). -/
structure SensorTickOut where
  mode : ModeState
  sensors : SensorOut
  alarm : AlarmAct
deriving DecidableEq, Repr

/-- One `SensorTask` loop iteration (lines 196-232): run the mode dispatch,
then `updateSensors` (which reads the possibly-updated `yawBiasRate`), then
set the ATTITUDE alarm to ERROR if it returned non-zero and clear it
otherwise.  `none` when `updateSensors` blocks. -/
def sensorTaskTick (me : ModeEnv) (env : SensorEnv) (sh : SensorShared)
    (ms : ModeState) : Option SensorTickOut :=
  let ms' := modeStep me ms
  match updateSensors env { sh with yawBiasRate := ms'.yawBiasRate } with
  | none => none
  | some out =>
    some { mode := ms'
           sensors := out
           alarm := if out.ret ≠ 0 then AlarmAct.setError else AlarmAct.cleared }

/-- The `rotate` flag computed by `settingsUpdatedCb` (lines 488-503): clear
iff all three `BoardRotation` components are zero. -/
def rotateFlagOf (br : ℤ × ℤ × ℤ) : Bool :=
  if br.1 = 0 ∧ br.2.1 = 0 ∧ br.2.2 = 0 then false else true

/-- Modelled from the spec: application of the 3×3 board-rotation matrix `R`
to a published triple.  The matrix itself is produced by
`Quaternion2R(RPY2Quaternion(..))` from CoordinateConversions.c, which is not
under src/; spec section 4.1 ("Board rotation") mandates that when `rotate`
is set the published accel/gyro triples are pre-rotated by `R` before they
leave the loop.  Rows are `R.1`, `R.2.1`, `R.2.2`. -/
def applyR (R : (ℚ × ℚ × ℚ) × (ℚ × ℚ × ℚ) × (ℚ × ℚ × ℚ)) (v : ℚ × ℚ × ℚ) :
    ℚ × ℚ × ℚ :=
  (R.1.1 * v.1 + R.1.2.1 * v.2.1 + R.1.2.2 * v.2.2,
   R.2.1.1 * v.1 + R.2.1.2.1 * v.2.1 + R.2.1.2.2 * v.2.2,
   R.2.2.1 * v.1 + R.2.2.2.1 * v.2.1 + R.2.2.2.2 * v.2.2)

/-! ### Concrete inputs for counterexamples -/

/-- A neutral shared-globals record. -/
def sh0 : SensorShared :=
  { accelbias := (0, 0, 0), gyro_bias := (0, 0, 0)
    bias_correct_gyro := false, yawBiasRate := 0 }

/-- A tick on which both FIFOs are empty. -/
def envEmpty : SensorEnv :=
  { accelFifo := [], accelTemp := 2, accelScale := 1
    gyroFifo := [], gyroTemp := -512, gyroScale := 1
    magAvail := false, magValues := (0, 0, 0) }

/-- A steady-state mode environment: past bootstrap, not arming. -/
def meSteady : ModeEnv :=
  { tick := 8000, armed := Armed.disarmed, zeroDuringArming := false
    sKp := 1, sKi := 1, sYbr := 1 }

/-- A steady-state mode state: already initialized. -/
def msSteady : ModeState :=
  { accelKp := 2, accelKi := 3, yawBiasRate := 4, init := true }

/-- C8's scenario input: three raw accel samples `(10, -10, 5)`, unit scale. -/
def env8 : SensorEnv :=
  { accelFifo := List.replicate 3 { x := 10, y := -10, z := 5 }
    accelTemp := 2, accelScale := 1
    gyroFifo := [{ x := 0, y := 0, z := 0 }], gyroTemp := -512, gyroScale := 1
    magAvail := false, magValues := (0, 0, 0) }

/-- C8's scenario globals: `accel_bias = (10, -10, 0)`. -/
def sh8 : SensorShared :=
  { accelbias := (10, -10, 0), gyro_bias := (0, 0, 0)
    bias_correct_gyro := false, yawBiasRate := 0 }

/-- C2's scenario input: one raw accel sample `(0, 100, 0)`, unit scale. -/
def env2 : SensorEnv :=
  { accelFifo := [{ x := 0, y := 100, z := 0 }]
    accelTemp := 2, accelScale := 1
    gyroFifo := [{ x := 0, y := 0, z := 0 }], gyroTemp := -512, gyroScale := 1
    magAvail := false, magValues := (0, 0, 0) }

/-- A yaw-90° board-rotation matrix, used to exhibit that no rotation is
applied (any `R` with `R·v ≠ v` would do). -/
def R90 : (ℚ × ℚ × ℚ) × (ℚ × ℚ × ℚ) × (ℚ × ℚ × ℚ) :=
  ((0, -1, 0), (1, 0, 0), (0, 0, 1))

/-! ## Estimator half (attitude.c lines 366-464)

Floats are `Option ℝ`: `some x` a finite value, `none` a non-finite one (see
the header comment). -/

/-- The estimator's float model. -/
abbrev F : Type := Option ℝ

/-- Float addition; non-finite operands propagate. -/
noncomputable def fadd : F → F → F
  | some x, some y => some (x + y)
  | _, _ => none

/-- Float subtraction. -/
noncomputable def fsub : F → F → F
  | some x, some y => some (x - y)
  | _, _ => none

/-- Float multiplication. -/
noncomputable def fmul : F → F → F
  | some x, some y => some (x * y)
  | _, _ => none

/-- Float negation. -/
noncomputable def fneg : F → F
  | some x => some (-x)
  | none => none

/-- Float division: a zero divisor produces a non-finite result (`0/0` is NaN,
`x/0` is an infinity — both are `none` here). -/
noncomputable def fdiv : F → F → F
  | some x, some y => if y = 0 then none else some (x / y)
  | _, _ => none

/-- `sqrtf`: NaN on a negative argument, exact square root otherwise. -/
noncomputable def fsqrt : F → F
  | some x => if x < 0 then none else some (Real.sqrt x)
  | none => none

/-- The comparison `f < 0` as the C source performs it on a float: false when
the operand is NaN (and NaN is the only non-finite value the estimator's
theorems admit at a comparison). -/
noncomputable def fltNeg : F → Bool
  | some x => decide (x < 0)
  | none => false

/-- A 3-vector of floats (an accel or gyro sample's axes). -/
structure EVec3 where
  x : F
  y : F
  z : F

/-- A quaternion of floats, in the source's `q[0..3]` order (the UAVObject
fields `q1..q4`). -/
structure Quat where
  q0 : F
  q1 : F
  q2 : F
  q3 : F

/-- The identity quaternion `(1,0,0,0)`. -/
noncomputable def identQ : Quat := ⟨some 1, some 0, some 0, some 0⟩

/-- The source's `F_PI` constant (line 65). -/
noncomputable def F_PI : ℝ := 3.14159265358979323846

/-- All three sample components are finite. -/
def EVec3.Finite (v : EVec3) : Prop :=
  (∃ x : ℝ, v.x = some x) ∧ (∃ y : ℝ, v.y = some y) ∧ (∃ z : ℝ, v.z = some z)

/-- Lines 395-397: rotate world gravity into the body frame,
`grot = (-(2(q1 q3 - q0 q2)), -(2(q2 q3 + q0 q1)), -(q0² - q1² - q2² + q3²))`. -/
noncomputable def grotOf (q : Quat) : EVec3 :=
  ⟨fneg (fmul (some 2) (fsub (fmul q.q1 q.q3) (fmul q.q0 q.q2))),
   fneg (fmul (some 2) (fadd (fmul q.q2 q.q3) (fmul q.q0 q.q1))),
   fneg (fadd (fsub (fsub (fmul q.q0 q.q0) (fmul q.q1 q.q1)) (fmul q.q2 q.q2))
              (fmul q.q3 q.q3))⟩

/-- Modelled from the spec: `CrossProduct` lives in CoordinateConversions.c,
which is not under src/; spec section 4.2 step 2 specifies
"Error = a × g_b (3D cross product)", and section 4.3 lists the 3-vector
cross product among the pure library utilities.  Standard cross product,
lifted to the float model. -/
noncomputable def CrossProduct (a b : EVec3) : EVec3 :=
  ⟨fsub (fmul a.y b.z) (fmul a.z b.y),
   fsub (fmul a.z b.x) (fmul a.x b.z),
   fsub (fmul a.x b.y) (fmul a.y b.x)⟩

/-- Lines 401-402: `accel_mag = sqrtf(x*x + y*y + z*z)`. -/
noncomputable def accelMagOf (a : EVec3) : F :=
  fsqrt (fadd (fadd (fmul a.x a.x) (fmul a.y a.y)) (fmul a.z a.z))

/-- Lines 398-405: cross the accel sample with body-frame gravity and divide
each component by the accel magnitude.  There is no guard: when the magnitude
is zero the division is performed anyway (`0/0`, NaN). -/
noncomputable def accelErrOf (a : EVec3) (q : Quat) : EVec3 :=
  let e := CrossProduct a (grotOf q)
  let m := accelMagOf a
  ⟨fdiv e.x m, fdiv e.y m, fdiv e.z m⟩

/-- Lines 412-414: `gyrosData += accel_err * accelKp / dT`. -/
noncomputable def correctedRates (g a : EVec3) (q : Quat) (kp dT : F) : EVec3 :=
  let e := accelErrOf a q
  ⟨fadd g.x (fdiv (fmul e.x kp) dT),
   fadd g.y (fdiv (fmul e.y kp) dT),
   fadd g.z (fdiv (fmul e.z kp) dT)⟩

/-- Lines 419-423: the quaternion derivative; each component is a skew
product of `q` with the rate vector, times `dT * F_PI / 180 / 2`. -/
noncomputable def qdotOf (q : Quat) (w : EVec3) (dT : F) : Quat :=
  ⟨fdiv (fdiv (fmul (fmul (fsub (fsub (fneg (fmul q.q1 w.x)) (fmul q.q2 w.y))
                                (fmul q.q3 w.z)) dT) (some F_PI)) (some 180)) (some 2),
   fdiv (fdiv (fmul (fmul (fadd (fsub (fmul q.q0 w.x) (fmul q.q3 w.y))
                                (fmul q.q2 w.z)) dT) (some F_PI)) (some 180)) (some 2),
   fdiv (fdiv (fmul (fmul (fsub (fadd (fmul q.q3 w.x) (fmul q.q0 w.y))
                                (fmul q.q1 w.z)) dT) (some F_PI)) (some 180)) (some 2),
   fdiv (fdiv (fmul (fmul (fadd (fadd (fneg (fmul q.q2 w.x)) (fmul q.q1 w.y))
                                (fmul q.q0 w.z)) dT) (some F_PI)) (some 180)) (some 2)⟩

/-- Lines 426-429: the Euler step `q = q + qdot`. -/
noncomputable def qIntegrate (q qd : Quat) : Quat :=
  ⟨fadd q.q0 qd.q0, fadd q.q1 qd.q1, fadd q.q2 qd.q2, fadd q.q3 qd.q3⟩

/-- Lines 431-436: negate all components when `q[0] < 0` (canonical
hemisphere). -/
noncomputable def qFlip (q : Quat) : Quat :=
  if fltNeg q.q0 then ⟨fneg q.q0, fneg q.q1, fneg q.q2, fneg q.q3⟩ else q

/-- Line 439: `qmag = sqrtf(q0² + q1² + q2² + q3²)`. -/
noncomputable def qmagOf (q : Quat) : F :=
  fsqrt (fadd (fadd (fadd (fmul q.q0 q.q0) (fmul q.q1 q.q1)) (fmul q.q2 q.q2))
        (fmul q.q3 q.q3))

/-- Lines 440-443: divide every component by `qmag`. -/
noncomputable def qNormalize (q : Quat) (m : F) : Quat :=
  ⟨fdiv q.q0 m, fdiv q.q1 m, fdiv q.q2 m, fdiv q.q3 m⟩

/-- Line 447: `(fabs(qmag) < 1.0e-3f) || (qmag != qmag)`.  The NaN
self-inequality holds exactly for a non-finite `qmag` in the regime the
theorems admit, hence the `none` case is `true`. -/
noncomputable def qmagBad : F → Bool
  | some s => decide (|s| < 1e-3)
  | none => true

/-- Lines 431-452: hemisphere flip, renormalization, and the defensive reset
to the identity quaternion when `qmag` is tiny or NaN. -/
noncomputable def attFinalize (q1 : Quat) : Quat :=
  let q2 := qFlip q1
  let m := qmagOf q2
  if qmagBad m then identQ else qNormalize q2 m

/-- Lines 394-429 composed: the integrated, not yet normalized quaternion of
one estimator step. -/
noncomputable def preNormQuat (g a : EVec3) (q : Quat) (kp dT : F) : Quat :=
  qIntegrate q (qdotOf q (correctedRates g a q kp dT) dT)

/-- What one `updateAttitudeComplimentary` call writes: the stored/published
quaternion, the two bias axes the estimator owns, the alarm transition and
the C return value.  (The roll/pitch/yaw fields of `AttitudeActual` are
derived from the quaternion by `Quaternion2RPY`, an external
CoordinateConversions routine, and are not modelled.) -/
structure AttResult where
  attitude : Quat
  bias0 : F
  bias1 : F
  alarm : AlarmAct
  ret : ℤ

/-- `updateAttitudeComplimentary` (lines 368-464).  `rg`/`ra` are the results
of the two 10 ms queue receives (`none` = timeout).  On timeout the ATTITUDE
alarm is set to ERROR and the function returns -1 before touching the
attitude record or the biases (lines 373-377).  Otherwise it forms the
gravity error, accumulates `gyro_bias[0..1] += accel_err * accelKi`
(lines 408-409), integrates the quaternion with the `accelKp/dT`-corrected
rates, flips/renormalizes/resets it, stores and publishes it, and clears the
alarm (lines 459-461). -/
noncomputable def updateAttitudeComplimentary (rg ra : Option EVec3)
    (kp ki dT : F) (att : Quat) (b0 b1 : F) : AttResult :=
  match rg, ra with
  | some gyrosData, some accelsData =>
    let e := accelErrOf accelsData att
    { attitude := attFinalize (preNormQuat gyrosData accelsData att kp dT)
      bias0 := fadd b0 (fmul e.x ki)
      bias1 := fadd b1 (fmul e.y ki)
      alarm := AlarmAct.cleared
      ret := 0 }
  | _, _ =>
    { attitude := att, bias0 := b0, bias1 := b1
      alarm := AlarmAct.setError, ret := -1 }

/-- The `AttitudeTask` main loop (lines 246-253): each iteration calls
`updateAttitudeComplimentary` unconditionally — after a timeout the task
simply re-enters the wait on its next iteration.  The estimator state it
threads is the stored quaternion and the two bias axes it owns. -/
noncomputable def attTaskRun (kp ki dT : F) :
    List (Option EVec3 × Option EVec3) → Quat × F × F → Quat × F × F
  | [], st => st
  | (rg, ra) :: rest, (att, b0, b1) =>
    let r := updateAttitudeComplimentary rg ra kp ki dT att b0 b1
    attTaskRun kp ki dT rest (r.attitude, r.bias0, r.bias1)

/-- The published-quaternion invariant of spec sections 3 and 8: all four
components finite, `q0 ≥ 0`, and the norm within `[1 - 1e-4, 1 + 1e-4]`. -/
def quatPubOK (qp : Quat) : Prop :=
  ∃ r0 r1 r2 r3 : ℝ,
    qp = ⟨some r0, some r1, some r2, some r3⟩ ∧ 0 ≤ r0 ∧
    1 - 1e-4 ≤ Real.sqrt (r0 ^ 2 + r1 ^ 2 + r2 ^ 2 + r3 ^ 2) ∧
    Real.sqrt (r0 ^ 2 + r1 ^ 2 + r2 ^ 2 + r3 ^ 2) ≤ 1 + 1e-4

/-- C1's failing input: an all-zero accel sample. -/
noncomputable def aZero : EVec3 := ⟨some 0, some 0, some 0⟩

/-- C1's gyro sample. -/
noncomputable def gOne : EVec3 := ⟨some 1, some 1, some 1⟩

/-! ## Lemmas about the float model -/

@[simp] theorem fadd_some (x y : ℝ) : fadd (some x) (some y) = some (x + y) := rfl

@[simp] theorem fadd_none_left (b : F) : fadd none b = none := by cases b <;> rfl

@[simp] theorem fadd_none_right (a : F) : fadd a none = none := by cases a <;> rfl

@[simp] theorem fsub_some (x y : ℝ) : fsub (some x) (some y) = some (x - y) := rfl

@[simp] theorem fsub_none_left (b : F) : fsub none b = none := by cases b <;> rfl

@[simp] theorem fsub_none_right (a : F) : fsub a none = none := by cases a <;> rfl

@[simp] theorem fmul_some (x y : ℝ) : fmul (some x) (some y) = some (x * y) := rfl

@[simp] theorem fmul_none_left (b : F) : fmul none b = none := by cases b <;> rfl

@[simp] theorem fmul_none_right (a : F) : fmul a none = none := by cases a <;> rfl

@[simp] theorem fneg_some (x : ℝ) : fneg (some x) = some (-x) := rfl

@[simp] theorem fneg_none : fneg none = none := rfl

@[simp] theorem fdiv_some (x y : ℝ) :
    fdiv (some x) (some y) = if y = 0 then none else some (x / y) := rfl

@[simp] theorem fdiv_none_left (b : F) : fdiv none b = none := by cases b <;> rfl

@[simp] theorem fdiv_none_right (a : F) : fdiv a none = none := by cases a <;> rfl

@[simp] theorem fsqrt_some (x : ℝ) :
    fsqrt (some x) = if x < 0 then none else some (Real.sqrt x) := rfl

@[simp] theorem fsqrt_none : fsqrt none = none := rfl

@[simp] theorem fltNeg_some (x : ℝ) : fltNeg (some x) = decide (x < 0) := rfl

@[simp] theorem fltNeg_none : fltNeg none = false := rfl

@[simp] theorem qmagBad_some (s : ℝ) : qmagBad (some s) = decide (|s| < 1e-3) := rfl

@[simp] theorem qmagBad_none : qmagBad none = true := rfl

/-! ## C7: the mode dispatch of SensorTask -/

/-- Helper: a steady-state tick (no override window active, `init` already
set) leaves the tuning state untouched. -/
theorem modeStep_steady (e : ModeEnv) (s : ModeState) (hA : ¬guardBoot e)
    (hB : ¬guardArming e) (hI : s.init = true) : modeStep e s = s := by
  unfold guardBoot at hA
  unfold guardArming at hB
  unfold modeStep
  rw [if_neg hA, if_neg hB, if_neg (by simp [hI])]

/-- Helper: over a run of steady-state ticks the state never changes (in
particular settings are not reloaded again). -/
theorem modeRun_steady (l : List ModeEnv) (s : ModeState)
    (h : ∀ x ∈ l, ¬guardBoot x ∧ ¬guardArming x) (hI : s.init = true) :
    modeRun l s = s := by
  induction l with
  | nil => rfl
  | cons e t ih =>
    have he := h e (List.mem_cons_self e t)
    have hs : modeStep e s = s := modeStep_steady e s he.1 he.2 hI
    simpa [modeRun, hs] using ih (fun x hx => h x (List.mem_cons_of_mem e hx))

/-- C7 counterexample: on a steady-state tick (tick count 8000, not arming,
`init = 1`) none of the three mode branches applies — the dispatch falls
through and changes nothing — refuting "on each sensor tick exactly one of
three mode branches applies". -/
theorem c7_no_branch_applies :
    ¬(guardBoot meSteady ∨ guardArming meSteady ∨ guardInit msSteady) ∧
    modeStep meSteady msSteady = msSteady := by
  constructor
  · decide
  · decide

/-- C7 (amended): at most one of the three mode branches applies per tick, in
priority order — the bootstrap window (tick count strictly between 1000 and
7000) forces `accel_kp = 1`, `accel_ki = 0.9`, `yaw_bias_rate = 0.23` and
clears `init`; otherwise arming with `zero_during_arming` forces the same;
otherwise a clear `init` reloads the three gains from settings and sets
`init`; otherwise the tick changes nothing.  Hence settings are reloaded
exactly once, on the first non-override tick, and never again while `init`
stays set. -/
theorem c7_mode_priority (e : ModeEnv) (s : ModeState) :
    (guardBoot e →
      modeStep e s = { accelKp := 1, accelKi := 0.9, yawBiasRate := 0.23, init := false }) ∧
    (¬guardBoot e → guardArming e →
      modeStep e s = { accelKp := 1, accelKi := 0.9, yawBiasRate := 0.23, init := false }) ∧
    (¬guardBoot e → ¬guardArming e → guardInit s →
      modeStep e s = { accelKp := e.sKp, accelKi := e.sKi, yawBiasRate := e.sYbr, init := true }) ∧
    (¬guardBoot e → ¬guardArming e → ¬guardInit s → modeStep e s = s) ∧
    (∀ l : List ModeEnv, (∀ x ∈ l, ¬guardBoot x ∧ ¬guardArming x) →
      s.init = true → modeRun l s = s) := by
  refine ⟨?_, ?_, ?_, ?_, fun l hl hI => modeRun_steady l s hl hI⟩
  · intro hA
    unfold guardBoot at hA
    unfold modeStep
    rw [if_pos hA]
  · intro hA hB
    unfold guardBoot at hA
    unfold guardArming at hB
    unfold modeStep
    rw [if_neg hA, if_pos hB]
  · intro hA hB hI
    unfold guardBoot at hA
    unfold guardArming at hB
    unfold guardInit at hI
    unfold modeStep
    rw [if_neg hA, if_neg hB, if_pos hI]
  · intro hA hB hI
    have hI' : s.init = true := by
      revert hI; unfold guardInit; cases s.init <;> simp
    exact modeStep_steady e s hA hB hI'

/-- C7 witness: the amended theorem applied on a bootstrap-window tick. -/
theorem c7_mode_priority_witness :
    guardBoot { tick := 2000, armed := Armed.disarmed, zeroDuringArming := false,
                sKp := 5, sKi := 6, sYbr := 7 } ∧
    modeStep { tick := 2000, armed := Armed.disarmed, zeroDuringArming := false,
               sKp := 5, sKi := 6, sYbr := 7 } msSteady =
      { accelKp := 1, accelKi := 0.9, yawBiasRate := 0.23, init := false } :=
  ⟨by decide,
   (c7_mode_priority _ msSteady).1 (by decide)⟩

/-! ## C3: behaviour on an empty FIFO -/

/-- C3 counterexample: a tick on which the FIFOs yield no samples does not
complete — the spin-read blocks — so no ERROR alarm is raised and the loop
does not continue to the next tick, refuting the claim. -/
theorem c3_empty_fifo_blocks :
    sensorTaskTick meSteady envEmpty sh0 msSteady = none := by
  decide

/-- C3 (amended): `updateSensors` spin-waits until a FIFO sample is
available, so a tick completes exactly when both FIFOs produced at least one
sample (an empty FIFO blocks the task rather than producing an error and
continuing); whenever a tick does complete, the averaging divided by the
positive sample counts, `updateSensors` returned 0 — its only return value,
so the `ERROR` branch of `SensorTask` is unreachable — and the tick cleared
the ATTITUDE alarm. -/
theorem c3_blocks_instead_of_error (me : ModeEnv) (env : SensorEnv)
    (sh : SensorShared) (ms : ModeState) :
    (sensorTaskTick me env sh ms = none ↔
      env.accelFifo = [] ∨ env.gyroFifo = []) ∧
    (∀ o, sensorTaskTick me env sh ms = some o →
      env.accelFifo.length ≠ 0 ∧ env.gyroFifo.length ≠ 0 ∧
      o.sensors.ret = 0 ∧ o.alarm = AlarmAct.cleared) := by
  obtain ⟨af, aT, aS, gf, gT, gS, mA, mV⟩ := env
  cases af with
  | nil =>
    constructor
    · simp [sensorTaskTick, updateSensors]
    · intro o ho
      simp [sensorTaskTick, updateSensors] at ho
  | cons a as =>
    cases gf with
    | nil =>
      constructor
      · simp [sensorTaskTick, updateSensors]
      · intro o ho
        simp [sensorTaskTick, updateSensors] at ho
    | cons g gs =>
      constructor
      · simp [sensorTaskTick, updateSensors]
      · intro o ho
        simp [sensorTaskTick, updateSensors] at ho
        subst ho
        simp

/-- C3 witness: the amended theorem applied to the empty-FIFO tick. -/
theorem c3_blocks_instead_of_error_witness :
    sensorTaskTick meSteady envEmpty sh0 msSteady = none :=
  (c3_blocks_instead_of_error meSteady envEmpty sh0 msSteady).1.mpr (Or.inl rfl)

/-! ## C6 / C9: the sample pipeline of updateSensors -/

/-- Helper: the accumulation fold computes the per-axis sums, from any
starting accumulator. -/
theorem accumOf_go (l : List Raw3) (s : ℤ × ℤ × ℤ) :
    l.foldl (fun s r => (s.1 + r.x, s.2.1 + r.y, s.2.2 + r.z)) s =
      (s.1 + (l.map Raw3.x).sum, s.2.1 + (l.map Raw3.y).sum,
       s.2.2 + (l.map Raw3.z).sum) := by
  induction l generalizing s with
  | nil => simp
  | cons r t ih =>
    simp only [List.foldl_cons, List.map_cons, List.sum_cons, ih]
    refine Prod.ext ?_ (Prod.ext ?_ ?_) <;> simp <;> ring

/-- Helper: the accumulators equal the per-axis sums of the drained samples. -/
theorem accumOf_eq (l : List Raw3) :
    accumOf l = ((l.map Raw3.x).sum, (l.map Raw3.y).sum, (l.map Raw3.z).sum) := by
  simpa [accumOf] using accumOf_go l (0, 0, 0)

/-- Helper: the remapped per-tick average, written with explicit sums. -/
theorem remapAvg_eq (l : List Raw3) :
    remapAvg l =
      (((l.map Raw3.y).sum : ℚ) / (l.length : ℚ),
       ((l.map Raw3.x).sum : ℚ) / (l.length : ℚ),
       -(((l.map Raw3.z).sum : ℚ) / (l.length : ℚ))) := by
  simp [remapAvg, accumOf_eq]

/-- Helper: on non-empty FIFOs `updateSensors` completes, and its output
fields are exactly the pipeline expressions of lines 296-361. -/
theorem updateSensors_eq (env : SensorEnv) (sh : SensorShared)
    (ha : env.accelFifo ≠ []) (hg : env.gyroFifo ≠ []) :
    updateSensors env sh =
      some
        { accelsData :=
            { x := ((remapAvg env.accelFifo).1 - (sh.accelbias.1 : ℚ)) * env.accelScale
              y := ((remapAvg env.accelFifo).2.1 - (sh.accelbias.2.1 : ℚ)) * env.accelScale
              z := ((remapAvg env.accelFifo).2.2 - (sh.accelbias.2.2 : ℚ)) * env.accelScale
              temperature := 25 + ((env.accelTemp : ℚ) - 2) / 2 }
          queueAccel :=
            { x := ((remapAvg env.accelFifo).1 - (sh.accelbias.1 : ℚ)) * env.accelScale
              y := ((remapAvg env.accelFifo).2.1 - (sh.accelbias.2.1 : ℚ)) * env.accelScale
              z := ((remapAvg env.accelFifo).2.2 - (sh.accelbias.2.2 : ℚ)) * env.accelScale
              temperature := 25 + ((env.accelTemp : ℚ) - 2) / 2 }
          queueGyro :=
            { x := (remapAvg env.gyroFifo).1 * env.gyroScale
              y := (remapAvg env.gyroFifo).2.1 * env.gyroScale
              z := (remapAvg env.gyroFifo).2.2 * env.gyroScale
              temperature := 35 + ((env.gyroTemp : ℚ) + 512) / 340 }
          gyrosData :=
            if sh.bias_correct_gyro then
              { x := (remapAvg env.gyroFifo).1 * env.gyroScale + sh.gyro_bias.1
                y := (remapAvg env.gyroFifo).2.1 * env.gyroScale + sh.gyro_bias.2.1
                z := (remapAvg env.gyroFifo).2.2 * env.gyroScale + sh.gyro_bias.2.2
                temperature := 35 + ((env.gyroTemp : ℚ) + 512) / 340 }
            else
              { x := (remapAvg env.gyroFifo).1 * env.gyroScale
                y := (remapAvg env.gyroFifo).2.1 * env.gyroScale
                z := (remapAvg env.gyroFifo).2.2 * env.gyroScale
                temperature := 35 + ((env.gyroTemp : ℚ) + 512) / 340 }
          gyro_bias_z :=
            sh.gyro_bias.2.2 +
              -(if sh.bias_correct_gyro then
                  (remapAvg env.gyroFifo).2.2 * env.gyroScale + sh.gyro_bias.2.2
                else (remapAvg env.gyroFifo).2.2 * env.gyroScale) * sh.yawBiasRate
          mag :=
            if env.magAvail then
              some { x := -(env.magValues.1 : ℚ), y := -(env.magValues.2.1 : ℚ)
                     z := -(env.magValues.2.2 : ℚ) }
            else none
          ret := 0 } := by
  obtain ⟨af, aT, aS, gf, gT, gS, mA, mV⟩ := env
  cases af with
  | nil => exact absurd rfl ha
  | cons a as =>
    cases gf with
    | nil => exact absurd rfl hg
    | cons g gs =>
      simp only [updateSensors]
      cases sh.bias_correct_gyro <;> simp

/-- C6: the gyro record pushed to the estimator queue carries the raw
remapped, averaged, scaled rates with no bias correction; the record
published on the bus has `gyro_bias` added per axis exactly when
`bias_correct_gyro` is set; and after the publish
`gyro_bias[2]` becomes `bz - z_out * yawBiasRate` with `z_out` the published
z rate. -/
theorem c6_gyro_queue_raw_pub_corrected (env : SensorEnv) (sh : SensorShared)
    (ha : env.accelFifo ≠ []) (hg : env.gyroFifo ≠ []) :
    ∃ out, updateSensors env sh = some out ∧
      out.queueGyro.x = (remapAvg env.gyroFifo).1 * env.gyroScale ∧
      out.queueGyro.y = (remapAvg env.gyroFifo).2.1 * env.gyroScale ∧
      out.queueGyro.z = (remapAvg env.gyroFifo).2.2 * env.gyroScale ∧
      (sh.bias_correct_gyro = true →
        out.gyrosData.x = out.queueGyro.x + sh.gyro_bias.1 ∧
        out.gyrosData.y = out.queueGyro.y + sh.gyro_bias.2.1 ∧
        out.gyrosData.z = out.queueGyro.z + sh.gyro_bias.2.2) ∧
      (sh.bias_correct_gyro = false → out.gyrosData = out.queueGyro) ∧
      out.gyro_bias_z = sh.gyro_bias.2.2 - out.gyrosData.z * sh.yawBiasRate := by
  refine ⟨_, updateSensors_eq env sh ha hg, ?_⟩
  cases hb : sh.bias_correct_gyro <;> simp [hb] <;> ring

/-- C6 witness: a concrete tick with bias correction enabled. -/
theorem c6_gyro_queue_raw_pub_corrected_witness :
    ∃ out,
      updateSensors
        { accelFifo := [{ x := 1, y := 2, z := 3 }], accelTemp := 2, accelScale := 1
          gyroFifo := [{ x := 10, y := 20, z := 30 }], gyroTemp := -512, gyroScale := 2
          magAvail := false, magValues := (0, 0, 0) }
        { accelbias := (0, 0, 0), gyro_bias := (5, 6, 7), bias_correct_gyro := true
          yawBiasRate := 1 } = some out ∧
      out.gyrosData.z = out.queueGyro.z + 7 := by
  obtain ⟨out, h1, _, _, _, h5, _, _⟩ :=
    c6_gyro_queue_raw_pub_corrected
      { accelFifo := [{ x := 1, y := 2, z := 3 }], accelTemp := 2, accelScale := 1
        gyroFifo := [{ x := 10, y := 20, z := 30 }], gyroTemp := -512, gyroScale := 2
        magAvail := false, magValues := (0, 0, 0) }
      { accelbias := (0, 0, 0), gyro_bias := (5, 6, 7), bias_correct_gyro := true
        yawBiasRate := 1 } (by simp) (by simp)
  exact ⟨out, h1, (h5 rfl).2.2⟩

/-- C9: the per-tick average before bias correction is the axis-remapped
triple — output x ← raw y, output y ← raw x, output z ← −raw z — for accel
and gyro alike (both computed by `remapAvg`); the gyro queue record is that
triple times the gyro scale, and the published accel is that triple minus
`accel_bias`, times the accel scale (so with zero bias it is exactly
`(b, a, -c) * scale` for raw triples `(a, b, c)`). -/
theorem c9_axis_remap (env : SensorEnv) (sh : SensorShared)
    (ha : env.accelFifo ≠ []) (hg : env.gyroFifo ≠ []) :
    remapAvg env.accelFifo =
      (((env.accelFifo.map Raw3.y).sum : ℚ) / (env.accelFifo.length : ℚ),
       ((env.accelFifo.map Raw3.x).sum : ℚ) / (env.accelFifo.length : ℚ),
       -(((env.accelFifo.map Raw3.z).sum : ℚ) / (env.accelFifo.length : ℚ))) ∧
    remapAvg env.gyroFifo =
      (((env.gyroFifo.map Raw3.y).sum : ℚ) / (env.gyroFifo.length : ℚ),
       ((env.gyroFifo.map Raw3.x).sum : ℚ) / (env.gyroFifo.length : ℚ),
       -(((env.gyroFifo.map Raw3.z).sum : ℚ) / (env.gyroFifo.length : ℚ))) ∧
    ∃ out, updateSensors env sh = some out ∧
      out.queueGyro.x = (remapAvg env.gyroFifo).1 * env.gyroScale ∧
      out.queueGyro.y = (remapAvg env.gyroFifo).2.1 * env.gyroScale ∧
      out.queueGyro.z = (remapAvg env.gyroFifo).2.2 * env.gyroScale ∧
      out.accelsData.x = ((remapAvg env.accelFifo).1 - (sh.accelbias.1 : ℚ)) * env.accelScale ∧
      out.accelsData.y = ((remapAvg env.accelFifo).2.1 - (sh.accelbias.2.1 : ℚ)) * env.accelScale ∧
      out.accelsData.z = ((remapAvg env.accelFifo).2.2 - (sh.accelbias.2.2 : ℚ)) * env.accelScale := by
  refine ⟨remapAvg_eq _, remapAvg_eq _, _, updateSensors_eq env sh ha hg, ?_⟩
  simp

/-- C9 witness: a single raw triple `(3, 5, 7)` comes out remapped as
`(5, 3, -7)` (times the unit scales, with zero bias). -/
theorem c9_axis_remap_witness :
    ∃ out,
      updateSensors
        { accelFifo := [{ x := 3, y := 5, z := 7 }], accelTemp := 2, accelScale := 1
          gyroFifo := [{ x := 3, y := 5, z := 7 }], gyroTemp := -512, gyroScale := 1
          magAvail := false, magValues := (0, 0, 0) }
        sh0 = some out ∧
      out.queueGyro.x = (remapAvg [{ x := 3, y := 5, z := 7 }]).1 * 1 ∧
      out.accelsData.x = ((remapAvg [{ x := 3, y := 5, z := 7 }]).1 - 0) * 1 := by
  obtain ⟨_, _, out, h1, h2, _, _, h5, _, _⟩ :=
    c9_axis_remap
      { accelFifo := [{ x := 3, y := 5, z := 7 }], accelTemp := 2, accelScale := 1
        gyroFifo := [{ x := 3, y := 5, z := 7 }], gyroTemp := -512, gyroScale := 1
        magAvail := false, magValues := (0, 0, 0) }
      sh0 (by simp) (by simp)
  refine ⟨out, h1, h2, ?_⟩
  simpa [sh0] using h5

/-! ## C8: accel bias is subtracted after the axis remap -/

/-- C8 counterexample: with `accel_bias = (10, -10, 0)` and raw accel samples
`(10, -10, 5)` fed repeatedly (three in the FIFO, unit scale), the published
accel is `(-20, 20)` on x,y — not `(0, 0)` as the claim states — because the
bias is subtracted from the already remapped average. -/
theorem c8_published_accel_not_zero :
    (updateSensors env8 sh8).map (fun o => (o.accelsData.x, o.accelsData.y)) =
      some (-20, 20) ∧ ((-20 : ℚ), (20 : ℚ)) ≠ ((0 : ℚ), (0 : ℚ)) := by
  constructor
  · rw [updateSensors_eq env8 sh8 (by simp [env8]) (by simp [env8])]
    simp only [Option.map_some']
    simp [env8, sh8, remapAvg_eq]
    norm_num
  · norm_num

/-- C8 (amended): with `accel_bias = (10, -10, 0)` in raw counts and any
number `n ≥ 1` of raw accel FIFO samples `(10, -10, c)` in a tick, the
published accel is `x = -20 * scale`, `y = 20 * scale`: the remap swaps the
axes to `(-10, 10)` before the bias `(10, -10)` is subtracted.  (Published
x,y of zero would instead require raw samples `(-10, 10, c)`.) -/
theorem c8_bias_after_remap (n : ℕ) (hn : n ≠ 0) (c aT gT : ℤ) (sc gs : ℚ)
    (gf : List Raw3) (hg : gf ≠ []) (mA : Bool) (mV : ℤ × ℤ × ℤ)
    (gb : ℚ × ℚ × ℚ) (bcg : Bool) (ybr : ℚ) :
    (updateSensors
        { accelFifo := List.replicate n { x := 10, y := -10, z := c }
          accelTemp := aT, accelScale := sc
          gyroFifo := gf, gyroTemp := gT, gyroScale := gs
          magAvail := mA, magValues := mV }
        { accelbias := (10, -10, 0), gyro_bias := gb
          bias_correct_gyro := bcg, yawBiasRate := ybr }).map
      (fun o => (o.accelsData.x, o.accelsData.y)) = some (-20 * sc, 20 * sc) := by
  have hne : List.replicate n ({ x := 10, y := -10, z := c } : Raw3) ≠ [] := by
    simp [hn]
  have hnq : ((n : ℚ)) ≠ 0 := Nat.cast_ne_zero.mpr hn
  have havg : remapAvg (List.replicate n { x := 10, y := -10, z := c }) =
      (-10, 10, -(c : ℚ)) := by
    rw [remapAvg_eq]
    simp only [List.map_replicate, List.sum_replicate, List.length_replicate,
      nsmul_eq_mul]
    push_cast
    refine Prod.ext ?_ (Prod.ext ?_ ?_)
    · field_simp
      try ring
    · field_simp
      try ring
    · rw [neg_inj, mul_comm, mul_div_assoc, div_self hnq, mul_one]
  rw [updateSensors_eq _ _ hne hg]
  simp only [Option.map_some']
  rw [havg]
  refine congrArg some (Prod.ext ?_ ?_) <;> push_cast <;> ring

/-- C8 witness: the amended theorem at the concrete scenario input. -/
theorem c8_bias_after_remap_witness :
    (updateSensors
        { accelFifo := List.replicate 3 { x := 10, y := -10, z := 5 }
          accelTemp := 2, accelScale := 1
          gyroFifo := [{ x := 0, y := 0, z := 0 }], gyroTemp := -512, gyroScale := 1
          magAvail := false, magValues := (0, 0, 0) }
        { accelbias := (10, -10, 0), gyro_bias := (0, 0, 0)
          bias_correct_gyro := false, yawBiasRate := 0 }).map
      (fun o => (o.accelsData.x, o.accelsData.y)) = some (-20 * 1, 20 * 1) :=
  c8_bias_after_remap 3 (by decide) 5 2 (-512) 1 1 [{ x := 0, y := 0, z := 0 }]
    (by simp) false (0, 0, 0) (0, 0, 0) false 0

/-! ## C2: board rotation is never applied in the acquisition path -/

/-- C2: `settingsUpdatedCb` sets the `rotate` flag for the non-zero board
rotation `(0, 0, 90)`, but `updateSensors` publishes the unrotated
remapped/scaled triple: for the raw accel sample `(0, 100, 0)` it publishes
`(100, 0, 0)`, while pre-rotating by the yaw-90° matrix would give
`(0, 100, 0)`.  No rotation by `R` occurs anywhere in the acquisition loop
(`updateSensors` reads neither `R` nor `rotate`). -/
theorem c2_board_rotation_not_applied :
    rotateFlagOf (0, 0, 90) = true ∧
    (updateSensors env2 sh0).map
      (fun o => (o.accelsData.x, o.accelsData.y, o.accelsData.z)) =
      some (100, 0, 0) ∧
    applyR R90 (100, 0, 0) = (0, 100, 0) ∧
    ((100 : ℚ), (0 : ℚ), (0 : ℚ)) ≠ ((0 : ℚ), (100 : ℚ), (0 : ℚ)) := by
  refine ⟨by decide, ?_, ?_, by norm_num⟩
  · rw [updateSensors_eq env2 sh0 (by simp [env2]) (by simp [env2])]
    simp only [Option.map_some']
    simp [env2, sh0, remapAvg_eq]
  · norm_num [applyR, R90]

/-! ## C4: the gravity-rotation and quaternion-kinematics formulas -/

/-- C4: for all finite values, the body-frame gravity vector computed at lines
395-397 equals `(-2(q1 q3 - q0 q2), -2(q2 q3 + q0 q1), -(q0^2 - q1^2 - q2^2 + q3^2))`;
each component of the quaternion derivative of lines 420-423 is the stated
skew product of `q` with the rate vector `w` times `dT * F_PI / 360` (the
source writes `* dT * F_PI / 180 / 2`, converting deg/s to rad/s inline and
halving) — inside the step, `w` is the `accelKp/dT`-corrected rate vector
`correctedRates`, which `preNormQuat` feeds to `qdotOf` —; and the Euler step
of lines 426-429 adds `qdot` to `q` componentwise. -/
theorem c4_grot_qdot_formulas (a0 a1 a2 a3 wx wy wz t d0 d1 d2 d3 : ℝ) :
    grotOf ⟨some a0, some a1, some a2, some a3⟩ =
      ⟨some (-(2 * (a1 * a3 - a0 * a2))), some (-(2 * (a2 * a3 + a0 * a1))),
       some (-(a0 ^ 2 - a1 ^ 2 - a2 ^ 2 + a3 ^ 2))⟩ ∧
    qdotOf ⟨some a0, some a1, some a2, some a3⟩ ⟨some wx, some wy, some wz⟩ (some t) =
      ⟨some ((-a1 * wx - a2 * wy - a3 * wz) * t * F_PI / 360),
       some ((a0 * wx - a3 * wy + a2 * wz) * t * F_PI / 360),
       some ((a3 * wx + a0 * wy - a1 * wz) * t * F_PI / 360),
       some ((-a2 * wx + a1 * wy + a0 * wz) * t * F_PI / 360)⟩ ∧
    qIntegrate ⟨some a0, some a1, some a2, some a3⟩ ⟨some d0, some d1, some d2, some d3⟩ =
      ⟨some (a0 + d0), some (a1 + d1), some (a2 + d2), some (a3 + d3)⟩ := by
  refine ⟨?_, ?_, rfl⟩
  · simp only [grotOf, fmul_some, fsub_some, fadd_some, fneg_some,
      Quat.mk.injEq, EVec3.mk.injEq, Option.some.injEq]
    refine ⟨by ring, by ring, by ring⟩
  · simp only [qdotOf, fmul_some, fsub_some, fadd_some, fneg_some, fdiv_some,
      Quat.mk.injEq, Option.some.injEq]
    norm_num
    refine ⟨by ring, by ring, by ring, by ring⟩

/-! ## C10: queue timeout leaves the state untouched -/

/-- C10: if either queue receive times out, `updateAttitudeComplimentary`
sets the ATTITUDE alarm to ERROR and returns -1 with the attitude quaternion
and both bias axes unchanged, and the attitude task's next iteration simply
processes the next inputs from the unchanged state (it re-enters the wait). -/
theorem c10_timeout_state_unchanged (rg ra : Option EVec3) (kp ki dT : F)
    (att : Quat) (b0 b1 : F) (rest : List (Option EVec3 × Option EVec3))
    (h : rg = none ∨ ra = none) :
    updateAttitudeComplimentary rg ra kp ki dT att b0 b1 =
      { attitude := att, bias0 := b0, bias1 := b1
        alarm := AlarmAct.setError, ret := -1 } ∧
    attTaskRun kp ki dT ((rg, ra) :: rest) (att, b0, b1) =
      attTaskRun kp ki dT rest (att, b0, b1) := by
  have h1 : updateAttitudeComplimentary rg ra kp ki dT att b0 b1 =
      { attitude := att, bias0 := b0, bias1 := b1
        alarm := AlarmAct.setError, ret := -1 } := by
    rcases h with rfl | rfl
    · cases ra <;> rfl
    · cases rg <;> rfl
  refine ⟨h1, ?_⟩
  simp [attTaskRun, h1]

/-- C10 witness: both receives time out on a concrete state. -/
theorem c10_timeout_state_unchanged_witness :
    ((none : Option EVec3) = none ∨ (none : Option EVec3) = none) ∧
    updateAttitudeComplimentary none none (some 1) (some 0.9) (some (1 / 500))
        identQ (some 0) (some 0) =
      { attitude := identQ, bias0 := some 0, bias1 := some 0
        alarm := AlarmAct.setError, ret := -1 } :=
  ⟨Or.inl rfl,
   (c10_timeout_state_unchanged none none (some 1) (some 0.9) (some (1 / 500))
     identQ (some 0) (some 0) [] (Or.inl rfl)).1⟩

/-! ## C1: a zero accel magnitude is not skipped -/

/-- C1 (refuted; the code, not the claim, is at fault): at the concrete input
accel = `(0,0,0)`, gyro = `(1,1,1)`, `dT = 1/100`, `q` = identity, zero bias,
unit gains, the step
(1) computes `accel_mag = 0` and still performs the normalization division —
`0/0`, a NaN, the `none` of the model — so the error-normalization does
divide by zero;
(2) updates `gyro_bias[0]` with that NaN (the claim says no bias update
happens);
(3) publishes the identity quaternion because the NaN reaches `qmag` and
trips the defensive reset of line 447 — whereas the gyro-only integration of
the same sample (last conjunct) has a non-zero `q1` component, so the step is
not gyro-only integration. -/
theorem c1_zero_accel_not_skipped :
    accelMagOf aZero = some 0 ∧
    accelErrOf aZero identQ = ⟨none, none, none⟩ ∧
    (updateAttitudeComplimentary (some gOne) (some aZero) (some 1) (some 1)
        (some (1 / 100)) identQ (some 0) (some 0)).bias0 = none ∧
    (updateAttitudeComplimentary (some gOne) (some aZero) (some 1) (some 1)
        (some (1 / 100)) identQ (some 0) (some 0)).attitude = identQ ∧
    (attFinalize (qIntegrate identQ (qdotOf identQ gOne (some (1 / 100))))).q1 ≠
      some 0 := by
  have hmag : accelMagOf aZero = some 0 := by
    simp [accelMagOf, aZero, Real.sqrt_zero]
  have herr : accelErrOf aZero identQ = ⟨none, none, none⟩ := by
    simp [accelErrOf, CrossProduct, grotOf, aZero, identQ, accelMagOf,
      Real.sqrt_zero]
  have hpre : preNormQuat gOne aZero identQ (some 1) (some (1 / 100)) =
      ⟨none, none, none, none⟩ := by
    simp only [preNormQuat, qIntegrate, qdotOf, correctedRates]
    rw [herr]
    simp
  have hF : (0 : ℝ) < F_PI := by norm_num [F_PI]
  refine ⟨hmag, herr, ?_, ?_, ?_⟩
  · simp only [updateAttitudeComplimentary]
    rw [herr]
    simp
  · simp only [updateAttitudeComplimentary]
    rw [hpre]
    simp [attFinalize, qFlip, qmagOf]
  · have hqd : qdotOf identQ gOne (some (1 / 100)) =
        ⟨some 0, some (F_PI / 36000), some (F_PI / 36000), some (F_PI / 36000)⟩ := by
      have h180 : (180 : ℝ) ≠ 0 := by norm_num
      have h2 : (2 : ℝ) ≠ 0 := by norm_num
      simp only [qdotOf, gOne, identQ, fmul_some, fadd_some, fsub_some,
        fneg_some, fdiv_some, if_neg h180, if_neg h2, Quat.mk.injEq,
        Option.some.injEq]
      refine ⟨by ring, by ring, by ring, by ring⟩
    have hint : qIntegrate identQ (qdotOf identQ gOne (some (1 / 100))) =
        ⟨some 1, some (F_PI / 36000), some (F_PI / 36000), some (F_PI / 36000)⟩ := by
      rw [hqd]
      simp [qIntegrate, identQ]
    rw [hint]
    set k : ℝ := F_PI / 36000 with hkdef
    have hkpos : (0 : ℝ) < k := by rw [hkdef]; exact div_pos hF (by norm_num)
    have hflip : qFlip ⟨some 1, some k, some k, some k⟩ =
        ⟨some 1, some k, some k, some k⟩ := by
      norm_num [qFlip, fltNeg_some]
    have hmagQ : qmagOf ⟨some 1, some k, some k, some k⟩ =
        some (Real.sqrt (1 + 3 * k ^ 2)) := by
      simp only [qmagOf, fmul_some, fadd_some]
      rw [show (1 : ℝ) * 1 + k * k + k * k + k * k = 1 + 3 * k ^ 2 from by ring]
      rw [fsqrt_some, if_neg (by push_neg; positivity)]
    have hsq1 : (1 : ℝ) ≤ Real.sqrt (1 + 3 * k ^ 2) := by
      calc (1 : ℝ) = Real.sqrt 1 := Real.sqrt_one.symm
        _ ≤ _ := Real.sqrt_le_sqrt (by nlinarith [sq_nonneg k])
    simp only [attFinalize, hflip, hmagQ, qmagBad_some, qNormalize]
    rw [if_neg (by
      simp only [decide_eq_true_eq, not_lt]
      rw [abs_of_nonneg (Real.sqrt_nonneg _)]
      linarith)]
    simp only [fdiv_some]
    rw [if_neg (by linarith)]
    simp only [Option.some.injEq, ne_eq]
    have hpos : (0 : ℝ) < k / Real.sqrt (1 + 3 * k ^ 2) :=
      div_pos hkpos (by linarith)
    intro hcon
    rw [hcon] at hpos
    exact lt_irrefl 0 hpos

/-! ## C5: the published-quaternion invariant -/

/-- Helper: the identity quaternion satisfies the publish invariant. -/
theorem quatPubOK_identQ : quatPubOK identQ := by
  refine ⟨1, 0, 0, 0, rfl, by norm_num, ?_, ?_⟩ <;>
    rw [show (1 : ℝ) ^ 2 + 0 ^ 2 + 0 ^ 2 + 0 ^ 2 = 1 from by norm_num,
      Real.sqrt_one] <;> norm_num

/-- Helper: a non-finite component makes `qmag` non-finite. -/
theorem qmagOf_none (q : Quat)
    (h : q.q0 = none ∨ q.q1 = none ∨ q.q2 = none ∨ q.q3 = none) :
    qmagOf q = none := by
  obtain ⟨x0, x1, x2, x3⟩ := q
  rcases h with h | h | h | h <;> simp_all [qmagOf]

/-- Helper: with all components finite, `qmag` is the explicit square root of
the sum of squares. -/
theorem qmagOf_some (a0 a1 a2 a3 : ℝ) :
    qmagOf ⟨some a0, some a1, some a2, some a3⟩ =
      some (Real.sqrt (a0 * a0 + a1 * a1 + a2 * a2 + a3 * a3)) := by
  simp only [qmagOf, fmul_some, fadd_some]
  rw [fsqrt_some, if_neg (by
    push_neg
    exact add_nonneg (add_nonneg (add_nonneg (mul_self_nonneg a0)
      (mul_self_nonneg a1)) (mul_self_nonneg a2)) (mul_self_nonneg a3))]

/-- Helper: the hemisphere flip preserves non-finite components. -/
theorem qFlip_none_comp (q : Quat)
    (h : q.q0 = none ∨ q.q1 = none ∨ q.q2 = none ∨ q.q3 = none) :
    (qFlip q).q0 = none ∨ (qFlip q).q1 = none ∨ (qFlip q).q2 = none ∨
      (qFlip q).q3 = none := by
  unfold qFlip
  split
  · rcases h with h | h | h | h <;> simp [h]
  · exact h

/-- Helper: after the hemisphere flip, either `qmag` is non-finite or all
four components are finite with a non-negative scalar part and the explicit
`qmag`. -/
theorem flip_mag_spec (q : Quat) :
    qmagOf (qFlip q) = none ∨
    ∃ c0 c1 c2 c3 : ℝ, qFlip q = ⟨some c0, some c1, some c2, some c3⟩ ∧
      0 ≤ c0 ∧ qmagOf (qFlip q) =
        some (Real.sqrt (c0 * c0 + c1 * c1 + c2 * c2 + c3 * c3)) := by
  obtain ⟨x0, x1, x2, x3⟩ := q
  cases x0 with
  | none => exact Or.inl (qmagOf_none _ (qFlip_none_comp _ (Or.inl rfl)))
  | some v =>
    cases x1 with
    | none => exact Or.inl (qmagOf_none _ (qFlip_none_comp _ (Or.inr (Or.inl rfl))))
    | some b1 =>
      cases x2 with
      | none =>
        exact Or.inl (qmagOf_none _ (qFlip_none_comp _ (Or.inr (Or.inr (Or.inl rfl)))))
      | some b2 =>
        cases x3 with
        | none =>
          exact Or.inl
            (qmagOf_none _ (qFlip_none_comp _ (Or.inr (Or.inr (Or.inr rfl)))))
        | some b3 =>
          by_cases hv : v < 0
          · have hq : qFlip ⟨some v, some b1, some b2, some b3⟩ =
                ⟨some (-v), some (-b1), some (-b2), some (-b3)⟩ := by
              simp [qFlip, hv]
            exact Or.inr ⟨-v, -b1, -b2, -b3, hq, by linarith,
              by rw [hq]; exact qmagOf_some _ _ _ _⟩
          · have hq : qFlip ⟨some v, some b1, some b2, some b3⟩ =
                ⟨some v, some b1, some b2, some b3⟩ := by
              simp [qFlip, hv]
            exact Or.inr ⟨v, b1, b2, b3, hq, not_lt.mp hv,
              by rw [hq]; exact qmagOf_some _ _ _ _⟩

/-- Helper: the finalization of lines 431-452 always produces a quaternion
satisfying the publish invariant: any non-finite value reaching `qmag` (and
any `|qmag| < 1e-3`) funnels into the defensive identity reset, and otherwise
the division by `qmag` gives an exactly unit-norm quaternion whose scalar
part the preceding flip made non-negative. -/
theorem attFinalize_ok (q1 : Quat) : quatPubOK (attFinalize q1) := by
  rcases flip_mag_spec q1 with h | ⟨c0, c1, c2, c3, hq, hc0, hm⟩
  · simp only [attFinalize, h, qmagBad_none, if_true]
    exact quatPubOK_identQ
  · by_cases hb : |Real.sqrt (c0 * c0 + c1 * c1 + c2 * c2 + c3 * c3)| < 1e-3
    · simp only [attFinalize, hm, qmagBad_some]
      rw [if_pos (by simpa using hb)]
      exact quatPubOK_identQ
    · have hs0 : (0 : ℝ) ≤ c0 * c0 + c1 * c1 + c2 * c2 + c3 * c3 :=
        add_nonneg (add_nonneg (add_nonneg (mul_self_nonneg c0)
          (mul_self_nonneg c1)) (mul_self_nonneg c2)) (mul_self_nonneg c3)
      have hsqnn : 0 ≤ Real.sqrt (c0 * c0 + c1 * c1 + c2 * c2 + c3 * c3) :=
        Real.sqrt_nonneg _
      have hge : (1e-3 : ℝ) ≤ Real.sqrt (c0 * c0 + c1 * c1 + c2 * c2 + c3 * c3) := by
        have := not_lt.mp hb
        rwa [abs_of_nonneg hsqnn] at this
      have hpos : (0 : ℝ) < Real.sqrt (c0 * c0 + c1 * c1 + c2 * c2 + c3 * c3) :=
        lt_of_lt_of_le (by norm_num) hge
      have hne : Real.sqrt (c0 * c0 + c1 * c1 + c2 * c2 + c3 * c3) ≠ 0 :=
        ne_of_gt hpos
      simp only [attFinalize, hm, qmagBad_some]
      rw [if_neg (by simpa using hb), hq]
      simp only [qNormalize, fdiv_some, if_neg hne]
      have hsum :
          (c0 / Real.sqrt (c0 * c0 + c1 * c1 + c2 * c2 + c3 * c3)) ^ 2 +
            (c1 / Real.sqrt (c0 * c0 + c1 * c1 + c2 * c2 + c3 * c3)) ^ 2 +
            (c2 / Real.sqrt (c0 * c0 + c1 * c1 + c2 * c2 + c3 * c3)) ^ 2 +
            (c3 / Real.sqrt (c0 * c0 + c1 * c1 + c2 * c2 + c3 * c3)) ^ 2 = 1 := by
        rw [div_pow, div_pow, div_pow, div_pow, div_add_div_same,
          div_add_div_same, div_add_div_same,
          div_eq_one_iff_eq (pow_ne_zero 2 hne), Real.sq_sqrt hs0]
        ring
      refine ⟨_, _, _, _, rfl, div_nonneg hc0 hsqnn, ?_, ?_⟩ <;>
        rw [hsum, Real.sqrt_one] <;> norm_num

/-- C5: whenever both queue receives succeed (a successful publish), the
stored quaternion satisfies the invariant — all components finite, `q0 ≥ 0`,
and `|q| ∈ [1 - 1e-4, 1 + 1e-4]` (in the exact-arithmetic model the norm is
exactly 1) — for any current state whatsoever; the step also clears the
ATTITUDE alarm and returns 0; and if the pre-normalization magnitude is
below `1e-3` or non-finite (NaN), the quaternion published is exactly the
identity `(1,0,0,0)`.  The finiteness/`dT ≠ 0` hypotheses delimit the regime
in which the `Option ℝ` model is an exact image of the IEEE behaviour (see
the header comment); the invariant holds on all of it. -/
theorem c5_publish_invariant (g a : EVec3) (kp ki dT : F) (att : Quat)
    (b0 b1 : F) (_hg : EVec3.Finite g) (_ha : EVec3.Finite a)
    (_hkp : ∃ x : ℝ, kp = some x) (_hki : ∃ x : ℝ, ki = some x)
    (_ht : ∃ t : ℝ, dT = some t ∧ t ≠ 0) :
    quatPubOK
      (updateAttitudeComplimentary (some g) (some a) kp ki dT att b0 b1).attitude ∧
    (updateAttitudeComplimentary (some g) (some a) kp ki dT att b0 b1).alarm =
      AlarmAct.cleared ∧
    (updateAttitudeComplimentary (some g) (some a) kp ki dT att b0 b1).ret = 0 ∧
    (qmagBad (qmagOf (qFlip (preNormQuat g a att kp dT))) = true →
      (updateAttitudeComplimentary (some g) (some a) kp ki dT att b0 b1).attitude =
        identQ) := by
  refine ⟨?_, rfl, rfl, ?_⟩
  · simp only [updateAttitudeComplimentary]
    exact attFinalize_ok _
  · intro hb
    simp only [updateAttitudeComplimentary, attFinalize, hb, if_true]

/-- C5 witness: a concrete successful step from the identity attitude. -/
theorem c5_publish_invariant_witness :
    (∃ t : ℝ, (some (1 / 500 : ℝ) : F) = some t ∧ t ≠ 0) ∧
    quatPubOK
      (updateAttitudeComplimentary (some ⟨some 1, some 2, some 3⟩)
        (some ⟨some 0, some 0, some (-(981 / 100))⟩) (some 1) (some (9 / 10))
        (some (1 / 500)) identQ (some 0) (some 0)).attitude :=
  ⟨⟨1 / 500, rfl, by norm_num⟩,
   (c5_publish_invariant ⟨some 1, some 2, some 3⟩
      ⟨some 0, some 0, some (-(981 / 100))⟩ (some 1) (some (9 / 10))
      (some (1 / 500)) identQ (some 0) (some 0)
      ⟨⟨1, rfl⟩, ⟨2, rfl⟩, ⟨3, rfl⟩⟩ ⟨⟨0, rfl⟩, ⟨0, rfl⟩, ⟨-(981 / 100), rfl⟩⟩
      ⟨1, rfl⟩ ⟨9 / 10, rfl⟩ ⟨1 / 500, rfl, by norm_num⟩).1⟩
